import Mathlib

/-!
# Verification of the QM2023 capstone hurricane/housing data pipeline

Shallow embedding of the data model and operations of
`code/capstone_data_pipeline.py` and its standalone companions
(`code/filter/filter_florida_storms_60nm.py`,
`code/merge/merge_hurricane_economic.py`, `code/clean/clean_hurdat2.py`),
together with theorems settling the specification claims about them.

Python strings are modelled as `String` / `List Char`; Python floats
carrying exact decimal data (latitudes, wind speeds, costs) are modelled
exactly (as parsed decimals `Dec10` or as `ℚ`), and the floating-point
haversine computation is modelled over `ℝ` — every comparison the claims
depend on has margin far above double-precision rounding error.
-/

/-! ## String utilities (models of the Python `str` methods used) -/

/-- Model of Python `s.split(sep)` for a single-character separator:
splits a character list at every occurrence of `c`, keeping empty fields.
`splitOnChar c [] = [[]]`, as `"".split(",") == [""]` in Python. -/
def splitOnChar (c : Char) (l : List Char) : List (List Char) :=
  l.foldr
    (fun x acc => if x = c then [] :: acc else (x :: acc.headD []) :: acc.tail)
    [[]]

/-- Model of Python `str.strip()`: drop whitespace from both ends. -/
def trimChars (l : List Char) : List Char :=
  ((l.dropWhile Char.isWhitespace).reverse.dropWhile Char.isWhitespace).reverse

/-- Model of Python `str.upper()` on the ASCII data that occurs here. -/
def upperChars (l : List Char) : List Char :=
  l.map Char.toUpper

/-- Numeric value of a digit string, as used for `int(...)` on digit data. -/
def digitsToNat (l : List Char) : Nat :=
  l.foldl (fun a c => a * 10 + (c.toNat - 48)) 0

/-- Model of Python `int(s)` on a stripped field: an optional sign followed
by at least one digit; anything else raises `ValueError`, modelled `none`. -/
def parseIntCL (l : List Char) : Option Int :=
  match l with
  | '-' :: rest =>
    if rest ≠ [] ∧ rest.all Char.isDigit then some (-(digitsToNat rest : Int)) else none
  | '+' :: rest =>
    if rest ≠ [] ∧ rest.all Char.isDigit then some (digitsToNat rest : Int) else none
  | _ =>
    if l ≠ [] ∧ l.all Char.isDigit then some (digitsToNat l : Int) else none

/-- An exact decimal number `mant / 10 ^ frac`, the result of parsing a
decimal literal such as `"28.0"` (↦ `⟨280, 1⟩`) or `"82.5"` (↦ `⟨825, 1⟩`).
The values that occur in this data are exactly representable both as
decimals and as Python floats of the magnitudes involved here would
represent them for the comparisons the pipeline performs, so this is an
exact model of the parsed value. -/
structure Dec10 where
  mant : Int
  frac : Nat
deriving DecidableEq, Repr

/-- The rational value of a parsed decimal. -/
def Dec10.toQ (d : Dec10) : ℚ :=
  (d.mant : ℚ) / (10 : ℚ) ^ d.frac

/-- Negation of a parsed decimal. -/
def Dec10.neg (d : Dec10) : Dec10 :=
  ⟨-d.mant, d.frac⟩

/-- Decimal core of Python `float(s)`: `digits`, `digits.digits`, `digits.`
or `.digits` (at least one digit overall). Other strings raise
`ValueError`, modelled `none`. -/
def parseDecCL (l : List Char) : Option Dec10 :=
  match splitOnChar '.' l with
  | [w] =>
    if w ≠ [] ∧ w.all Char.isDigit then some ⟨(digitsToNat w : Int), 0⟩ else none
  | [w, f] =>
    if (w ≠ [] ∨ f ≠ []) ∧ w.all Char.isDigit ∧ f.all Char.isDigit then
      some ⟨(digitsToNat w : Int) * (10 : Int) ^ f.length + (digitsToNat f : Int),
            f.length⟩
    else none
  | _ => none

/-- Model of Python `float(s)` on the decimal fragment occurring in
HURDAT2 coordinate fields, with an optional leading sign. -/
def parseFloatCL (l : List Char) : Option Dec10 :=
  match l with
  | '-' :: rest => (parseDecCL rest).map Dec10.neg
  | '+' :: rest => parseDecCL rest
  | _ => parseDecCL l

/-! ## HURDAT2 parser (`parse_hurdat2` in `capstone_data_pipeline.py`) -/

/-- One parsed HURDAT2 track point, as built by `parse_hurdat2`.
`storm_id` / `storm_name` are `none` when no header line has been seen yet
(Python keeps `current_id = None` in that case). -/
structure TrackRec where
  storm_id : Option String
  storm_name : Option String
  date : String
  time : String
  record_id : String
  status : String
  lat : Dec10
  lon : Dec10
  max_wind : Option Int
  min_pressure : Option Int
deriving DecidableEq, Repr

/-- Wind / pressure field conversion of `capstone_data_pipeline.py`
(lines 143-150): the sentinels `""`, `"-999"`, `"-99"` become `None`,
other fields go through `int(...)` with `ValueError ↦ None`. -/
def windSentinel (s : List Char) : Option Int :=
  if s = [] ∨ s = ['-', '9', '9', '9'] ∨ s = ['-', '9', '9'] then none
  else parseIntCL s

/-- The comma-split, stripped fields of one line
(`[p.strip() for p in line.split(",")]`). -/
def lineParts (line : List Char) : List (List Char) :=
  (splitOnChar ',' line).map trimChars

/-- Header-line test: `parts[0].startswith(("AL","EP","CP")) and len(parts) >= 3`. -/
def isHeaderParts (parts : List (List Char)) : Bool :=
  (['A', 'L'].isPrefixOf (parts.headD []) ∨
   ['E', 'P'].isPrefixOf (parts.headD []) ∨
   ['C', 'P'].isPrefixOf (parts.headD [])) ∧ parts.length ≥ 3

/-- Data-line shape test:
`len(parts) >= 8 and len(parts[0]) == 8 and parts[0].isdigit()`. -/
def isDataShape (parts : List (List Char)) : Bool :=
  parts.length ≥ 8 ∧ (parts.headD []).length = 8 ∧ (parts.headD []).all Char.isDigit

/-- Latitude/longitude conversion: `"28.0N" ↦ 28.0`, `"80.1W" ↦ -80.1`.
A `ValueError`/`IndexError` in Python skips the line, modelled `none`.
Python computes `float(lat_str[:-1])` with sign from the last character
(`"N"` positive for latitude; `"W"` negative for longitude). -/
def parseCoords (parts : List (List Char)) : Option (Dec10 × Dec10) :=
  let latS := parts.getD 4 []
  let lonS := parts.getD 5 []
  match parseFloatCL latS.dropLast, parseFloatCL lonS.dropLast with
  | some la, some lo =>
    some ((if latS.getLast? = some 'N' then la else la.neg),
          (if lonS.getLast? = some 'W' then lo.neg else lo))
  | _, _ => none

/-- Parser loop state: the current storm header and accumulated records. -/
structure ParseState where
  current_id : Option String
  current_name : Option String
  records : List TrackRec
deriving DecidableEq, Repr

/-- One iteration of the `for line in text.strip().splitlines()` loop of
`parse_hurdat2`: header lines update the current storm, well-formed data
lines append a record, everything else is skipped. -/
def stepLine (st : ParseState) (line : List Char) : ParseState :=
  let parts := lineParts line
  if isHeaderParts parts then
    { st with
      current_id := some (String.mk (parts.headD []))
      current_name := some (String.mk (parts.getD 1 [])) }
  else if isDataShape parts then
    match parseCoords parts with
    | some (la, lo) =>
      { st with
        records := st.records ++ [{
          storm_id := st.current_id
          storm_name := st.current_name
          date := String.mk (parts.headD [])
          time := String.mk (parts.getD 1 [])
          record_id := String.mk (parts.getD 2 [])
          status := String.mk (parts.getD 3 [])
          lat := la
          lon := lo
          max_wind := windSentinel (parts.getD 6 [])
          min_pressure := windSentinel (parts.getD 7 []) }] }
    | none => st
  else st

/-- `parse_hurdat2(text)` of `capstone_data_pipeline.py` (lines 103-166):
parse HURDAT2 text into a list of track-point records.  (Line splitting
is modelled on `'\n'`; the pipeline's inputs use Unix newlines.) -/
def parse_hurdat2 (text : String) : List TrackRec :=
  ((splitOnChar '\n' (trimChars text.data)).foldl stepLine
    ⟨none, none, []⟩).records

/-- `int(rec["date"][:4])`: the year of a record.  Parser-produced records
have all-digit 8-character dates, on which this is exact. -/
def recYear (r : TrackRec) : Int :=
  (digitsToNat (r.date.data.take 4) : Int)

/-- The year-range test of the proximity-filter loop in
`capstone_data_pipeline.py` (lines 392-394): `2000 <= year <= 2025`. -/
def yearInRange (r : TrackRec) : Bool :=
  decide (2000 ≤ recYear r ∧ recYear r ≤ 2025)

/-! ## Geo-proximity filter (Section 4b of `capstone_data_pipeline.py`) -/

open Real in
/-- `haversine_nm(lat1, lon1, lat2, lon2)` (lines 93-100): great-circle
distance in nautical miles, with `R_NM = 3440.065` and arguments in
degrees. Modelled over `ℝ` (the Python code computes in floating point;
every comparison the claims depend on has margin far above float error). -/
noncomputable def haversine_nm (lat1 lon1 lat2 lon2 : ℝ) : ℝ :=
  let rNM : ℝ := 3440.065
  let l1 := lat1 * π / 180
  let o1 := lon1 * π / 180
  let l2 := lat2 * π / 180
  let o2 := lon2 * π / 180
  let a := Real.sin ((l2 - l1) / 2) ^ 2 +
    Real.cos l1 * Real.cos l2 * Real.sin ((o2 - o1) / 2) ^ 2
  2 * rNM * Real.arcsin (Real.sqrt a)

/-- `FL_CENTER_LAT = 27.5`. -/
def FL_CENTER_LAT : ℚ := 27.5

/-- `FL_CENTER_LON = -82.0`. -/
def FL_CENTER_LON : ℚ := -82.0

/-- Distance from a track record to the Florida center, as computed in the
filter loop: `haversine_nm(FL_CENTER_LAT, FL_CENTER_LON, rec.lat, rec.lon)`. -/
noncomputable def distToFL (r : TrackRec) : ℝ :=
  haversine_nm (FL_CENTER_LAT : ℝ) (FL_CENTER_LON : ℝ)
    ((r.lat.toQ : ℚ) : ℝ) ((r.lon.toQ : ℚ) : ℝ)

/-- Membership of a storm id in `florida_storm_ids` for an arbitrary
distance threshold `t` (the source fixes `t = FL_PROXIMITY_NM = 60`):
the loop at lines 391-403 adds `sid` exactly when some record of the storm
with year in 2000-2025 has distance ≤ t. -/
def stormInScopeAt (recs : List TrackRec) (t : ℝ) (sid : Option String) : Prop :=
  ∃ r ∈ recs, r.storm_id = sid ∧ yearInRange r = true ∧ distToFL r ≤ t

/-- `sid ∈ florida_storm_ids` with the source's threshold `60`. -/
def stormInScope (recs : List TrackRec) (sid : Option String) : Prop :=
  stormInScopeAt recs 60 sid

/-- The incremental-minimum loop of lines 391-401 restricted to one storm
id: walks the records in order, skips records outside 2000-2025, and keeps
the running minimum distance (`if dist < storm_min_dist[sid]`). -/
noncomputable def minDistLoop (sid : Option String) :
    List TrackRec → Option ℝ → Option ℝ
  | [], acc => acc
  | r :: rest, acc =>
    if yearInRange r = true ∧ r.storm_id = sid then
      minDistLoop sid rest
        (some (match acc with
               | none => distToFL r
               | some m => if distToFL r < m then distToFL r else m))
    else minDistLoop sid rest acc

/-- `storm_min_dist[sid]` after the filter loop (`none` when `sid` never
received an entry). -/
noncomputable def storm_min_dist (recs : List TrackRec) (sid : Option String) :
    Option ℝ :=
  minDistLoop sid recs none

/-- Minimum of a list of distances (`none` on the empty list); the
reference value used to state what `storm_min_dist` computes. -/
noncomputable def minOfList (l : List ℝ) : Option ℝ :=
  l.foldl (fun acc d => some (match acc with | none => d | some m => min m d)) none

/-- The distances of the storm's track points whose year lies in the
filtering range 2000-2025. -/
noncomputable def inRangeDists (recs : List TrackRec) (sid : Option String) :
    List ℝ :=
  (recs.filter (fun r => yearInRange r && r.storm_id == sid)).map distToFL

/-- The distances of ALL the storm's track points, in-range or not: the
value the specification says `closest_distance_nm` reports. -/
noncomputable def allDists (recs : List TrackRec) (sid : Option String) :
    List ℝ :=
  (recs.filter (fun r => r.storm_id == sid)).map distToFL

/-! ## Storm summarizer (Section 4b, lines 406-428) -/

/-- `max(winds)` over a storm's points: `winds = [r["max_wind"] for r in
storm_points if r["max_wind"] is not None]`, `None` when empty. -/
def maxWindOf (pts : List TrackRec) : Option Int :=
  match pts.filterMap (fun r => r.max_wind) with
  | [] => none
  | w :: ws => some (ws.foldl max w)

/-- `year = int(storm_points[0]["date"][:4])`: the year of the storm's first
point (`none` on an empty list, which the source skips). -/
def firstYearOf (pts : List TrackRec) : Option Int :=
  pts.head?.map recYear

/-! ## Economic-event processing (Section 4c, lines 460-497) -/

/-- The prefix-stripping loop of lines 465-469: remove the first matching
prefix of `"Hurricane "`, `"Tropical Storm "`, `"Tropical Cyclone "`
(with `break` after the first hit). -/
def stripStormKind (l : List Char) : List Char :=
  if "Hurricane ".data.isPrefixOf l then l.drop 10
  else if "Tropical Storm ".data.isPrefixOf l then l.drop 15
  else if "Tropical Cyclone ".data.isPrefixOf l then l.drop 17
  else l

/-- Lines 471-472: `if "(" in clean_name: clean_name =
clean_name[:clean_name.index("(")].strip()` — cut at the first `(` and
strip the result. -/
def stripParenthetical (l : List Char) : List Char :=
  if '(' ∈ l then trimChars (l.takeWhile (fun c => c ≠ '(')) else l

/-- `storm_name_clean` for an economic event name (lines 464-473):
strip a storm-kind prefix, cut any parenthetical, then uppercase. -/
def normalizeEventName (n : String) : String :=
  String.mk (upperChars (stripParenthetical (stripStormKind n.data)))

/-- The final merge key of line 510:
`econ_df["storm_name_clean"].str.strip()`. -/
def econMergeKey (n : String) : String :=
  String.mk (trimChars (normalizeEventName n).data)

/-- `round(q, 2)` on the exact rational value.  (Python rounds ties to
even on floats; no claim in scope depends on tie behaviour.) -/
def round2 (q : ℚ) : ℚ :=
  (round (q * 100) : ℤ) / 100

/-- One raw NOAA billion-dollar-disaster event, with `adjCost` and
`deaths` `none` when the JSON field is absent or null. -/
structure RawEconEvent where
  name : String
  begDate : String
  endDate : String
  adjCost : Option ℚ
  deaths : Option Int
deriving DecidableEq, Repr

/-- One row of the parsed economic-events table `econ_df` (lines 489-497). -/
structure EconEvent where
  event_name : String
  storm_name_clean : String
  year : Option Int
  begin_date : String
  end_date : String
  cost_usd_billion_cpi_adjusted : ℚ
  deaths : Int
deriving DecidableEq, Repr

/-- `int(beg[:4]) if len(beg) >= 4 else None`, with `ValueError ↦ None`
(lines 476-481). -/
def yearOfBegDate (s : String) : Option Int :=
  if s.length ≥ 4 then parseIntCL (s.data.take 4) else none

/-- The event-processing loop body of lines 462-497:
`cost_millions = event.get("adjCost", 0) or 0`,
`cost_billions = round(cost_millions / 1000, 2)`,
`deaths = event.get("deaths", 0) or 0`. -/
def processEconEvent (ev : RawEconEvent) : EconEvent :=
  { event_name := ev.name
    storm_name_clean := normalizeEventName ev.name
    year := yearOfBegDate ev.begDate
    begin_date := ev.begDate
    end_date := ev.endDate
    cost_usd_billion_cpi_adjusted := round2 ((ev.adjCost.getD 0) / 1000)
    deaths := ev.deaths.getD 0 }

/-! ## Hurricane-economic merge of the pipeline (Section 4d, lines 505-518) -/

/-- One row of the `florida_storms_df` summary table (lines 418-426).
Numeric fields are the already-rounded table values. -/
structure StormSummary where
  storm_id : Option String
  storm_name : String
  year : Int
  closest_distance_nm : ℚ
  max_wind_kt : Option ℚ
  min_pressure_mb : Option ℚ
  has_florida_landfall : Bool
deriving DecidableEq, Repr

/-- `florida_storms_df["_merge_name"] = ...str.upper().str.strip()`
(line 509). -/
def stormMergeKey (s : StormSummary) : String :=
  String.mk (trimChars (upperChars s.storm_name.data))

/-- The `(name, year)` merge condition of the inner join (lines 509-516):
the economic key is `storm_name_clean.str.strip()` (line 510), the storm
key is `storm_name.str.upper().str.strip()` (line 509); a pandas `NaN`
year (economic event with unparsable begin date) never matches. -/
def econStormMatch (e : EconEvent) (s : StormSummary) : Bool :=
  String.mk (trimChars e.storm_name_clean.data) == stormMergeKey s ∧
  e.year == some s.year

/-- One row of the merged `hurricane_econ` table (economic columns plus
the storm's track columns; `_merge_name` and `storm_name_clean` dropped). -/
structure MergedEcon where
  event_name : String
  year : Option Int
  begin_date : String
  end_date : String
  cost_usd_billion_cpi_adjusted : ℚ
  deaths : Int
  closest_distance_nm : ℚ
  max_wind_kt : Option ℚ
  min_pressure_mb : Option ℚ
  has_florida_landfall : Bool
deriving DecidableEq, Repr

/-- `econ_df.merge(florida_storms_df[...], on=["_merge_name","year"],
how="inner")`: every economic row is paired with every matching storm row;
rows without a match contribute nothing. -/
def hurricane_econ_join (econ : List EconEvent) (storms : List StormSummary) :
    List MergedEcon :=
  econ.flatMap (fun e =>
    (storms.filter (fun s => econStormMatch e s)).map (fun s =>
      { event_name := e.event_name
        year := e.year
        begin_date := e.begin_date
        end_date := e.end_date
        cost_usd_billion_cpi_adjusted := e.cost_usd_billion_cpi_adjusted
        deaths := e.deaths
        closest_distance_nm := s.closest_distance_nm
        max_wind_kt := s.max_wind_kt
        min_pressure_mb := s.min_pressure_mb
        has_florida_landfall := s.has_florida_landfall }))

/-! ## Standalone merge script (`code/merge/merge_hurricane_economic.py`) -/

/-- One row of `florida_storms_60nm_summary.csv` as read by
`load_track_data` (all CSV cells are strings except the parsed year). -/
structure TrackSummaryRow where
  year : Int
  storm : String
  sid : String
  closest : String
  max_wind : String
  min_pressure : String
deriving DecidableEq, Repr

/-- One row of the economic-impacts CSV as read by `load_econ_data`. -/
structure EconCsvRow where
  event_name : String
  data_year : Int
  begin_date : String
  end_date : String
  cost : String
  deaths : String
deriving DecidableEq, Repr

/-- One output row of the merge script (lines 86-97): economic fields
plus the looked-up track fields, empty strings when there is no match. -/
structure MergeScriptRow where
  event_name : String
  year : Int
  begin_date : String
  end_date : String
  cost_usd_billion_cpi_adjusted : String
  deaths : String
  closest_distance_nm : String
  max_wind_kt : String
  min_pressure_mb : String
  storm_id : String
deriving DecidableEq, Repr

/-- `extract_storm_name` of the merge script (lines 57-62): strips only
`"Hurricane "` / `"Tropical Storm "`, then strips and uppercases —
note: no `"Tropical Cyclone "` case and no parenthetical stripping. -/
def extract_storm_name (event_name : String) : String :=
  if "Hurricane ".data.isPrefixOf event_name.data then
    String.mk (upperChars (trimChars (event_name.data.drop 10)))
  else if "Tropical Storm ".data.isPrefixOf event_name.data then
    String.mk (upperChars (trimChars (event_name.data.drop 15)))
  else
    String.mk (upperChars (trimChars event_name.data))

/-- `load_track_data`: the dict keyed by `(storm.strip().upper(), year)`,
skipping falsy names/years; a later row overwrites an earlier one, so a
lookup returns the last valid matching row. -/
def trackLookup (rows : List TrackSummaryRow) (name : String) (year : Int) :
    Option TrackSummaryRow :=
  (rows.filter (fun r =>
    String.mk (upperChars (trimChars r.storm.data)) ≠ "" ∧ r.year ≠ 0 ∧
    String.mk (upperChars (trimChars r.storm.data)) = name ∧
    r.year = year)).getLast?

/-- The merge loop of `main` (lines 79-98): every economic row produces an
output row; `track_data.get(key, {})` yields empty-string track fields
when there is no match. -/
def merge_script_rows (econ : List EconCsvRow) (track : List TrackSummaryRow) :
    List MergeScriptRow :=
  econ.map (fun e =>
    let t := trackLookup track (extract_storm_name e.event_name) e.data_year
    { event_name := e.event_name
      year := e.data_year
      begin_date := e.begin_date
      end_date := e.end_date
      cost_usd_billion_cpi_adjusted := e.cost
      deaths := e.deaths
      closest_distance_nm := (t.map (fun r => r.closest)).getD ""
      max_wind_kt := (t.map (fun r => r.max_wind)).getD ""
      min_pressure_mb := (t.map (fun r => r.min_pressure)).getD ""
      storm_id := (t.map (fun r => r.sid)).getD "" })

/-! ## Annual aggregation and panel merge (Section 5, lines 543-593) -/

/-- Maximum of a list of rationals (pandas `max` skipping nulls:
applied to the non-null values; `none` when there are none). -/
def maxQOf (l : List ℚ) : Option ℚ :=
  match l with
  | [] => none
  | x :: xs => some (xs.foldl max x)

/-- Minimum of a list of rationals, `none` when empty. -/
def minQOf (l : List ℚ) : Option ℚ :=
  match l with
  | [] => none
  | x :: xs => some (xs.foldl min x)

/-- The group keys of `florida_storms_df.groupby("year")`: the distinct
storm years, in ascending order (pandas sorts group keys). -/
def stormYears (storms : List StormSummary) : List Int :=
  List.insertionSort (fun a b => a ≤ b) ((storms.map (fun s => s.year)).dedup)

/-- One row of the `annual_hurricane` table after Sections 5a-5b: the
per-year aggregates of lines 546-551 plus the economic totals of lines
562-571 (sums over the matched `hurricane_econ` rows for that year;
`fillna(0)` makes a year with no matched events total exactly 0). -/
structure AggRow where
  hurricane_year : Int
  hurricane_count : Int
  hurricane_max_wind_kt : Option ℚ
  hurricane_min_pressure_mb : Option ℚ
  hurricane_closest_nm : Option ℚ
  hurricane_total_cost_billion : ℚ
  hurricane_total_deaths : Int
deriving DecidableEq, Repr

/-- The annual hurricane aggregate (Sections 5a-5b): one row per distinct
storm year.  `count` counts non-null storm ids (pandas `count`). -/
def annualHurricane (storms : List StormSummary) (econJoined : List MergedEcon) :
    List AggRow :=
  (stormYears storms).map (fun y =>
    let group := storms.filter (fun s => s.year == y)
    let eg := econJoined.filter (fun m => m.year == some y)
    { hurricane_year := y
      hurricane_count := (group.countP (fun s => s.storm_id.isSome) : Int)
      hurricane_max_wind_kt := maxQOf (group.filterMap (fun s => s.max_wind_kt))
      hurricane_min_pressure_mb :=
        minQOf (group.filterMap (fun s => s.min_pressure_mb))
      hurricane_closest_nm := minQOf (group.map (fun s => s.closest_distance_nm))
      hurricane_total_cost_billion :=
        (eg.map (fun m => m.cost_usd_billion_cpi_adjusted)).sum
      hurricane_total_deaths := (eg.map (fun m => m.deaths)).sum })

/-- One row of the Zillow housing panel as it enters the merge of Section
5d: its metro, date, and the derived merge key
`hurricane_year = zillow_panel["Date"].dt.year` (line 575). -/
structure PanelRow where
  metro : String
  date : String
  hurricane_year : Int
deriving DecidableEq, Repr

/-- A merged row before fill: the panel row plus the matched aggregate row
(`none` when the left join found no match for the year). -/
structure MergedPanelRow where
  metro : String
  date : String
  hurricane_year : Int
  agg : Option AggRow
deriving DecidableEq, Repr

/-- `zillow_panel.merge(annual_hurricane, on="hurricane_year", how="left")`
(line 578): each panel row is replicated once per matching aggregate row,
and kept once with null aggregate columns when there is no match. -/
def leftJoinPanel (panel : List PanelRow) (agg : List AggRow) :
    List MergedPanelRow :=
  panel.flatMap (fun p =>
    match agg.filter (fun a => a.hurricane_year == p.hurricane_year) with
    | [] => [{ metro := p.metro, date := p.date,
               hurricane_year := p.hurricane_year, agg := none }]
    | ms => ms.map (fun a =>
        { metro := p.metro, date := p.date,
          hurricane_year := p.hurricane_year, agg := some a }))

/-- A fully merged and filled panel row (after the
`merged[col].fillna(0)` loop of lines 581-583). -/
structure FilledRow where
  metro : String
  date : String
  hurricane_year : Int
  hurricane_count : Int
  hurricane_max_wind_kt : ℚ
  hurricane_min_pressure_mb : ℚ
  hurricane_closest_nm : ℚ
  hurricane_total_cost_billion : ℚ
  hurricane_total_deaths : Int
deriving DecidableEq, Repr

/-- The per-column `fillna(0)` of lines 581-583 applied to one merged row:
every hurricane-derived column of an unmatched row (and every null cell of
a matched row) becomes exactly 0. -/
def fillMerged (m : MergedPanelRow) : FilledRow :=
  { metro := m.metro
    date := m.date
    hurricane_year := m.hurricane_year
    hurricane_count := (m.agg.map (fun a => a.hurricane_count)).getD 0
    hurricane_max_wind_kt :=
      ((m.agg.map (fun a => a.hurricane_max_wind_kt)).getD none).getD 0
    hurricane_min_pressure_mb :=
      ((m.agg.map (fun a => a.hurricane_min_pressure_mb)).getD none).getD 0
    hurricane_closest_nm :=
      ((m.agg.map (fun a => a.hurricane_closest_nm)).getD none).getD 0
    hurricane_total_cost_billion :=
      (m.agg.map (fun a => a.hurricane_total_cost_billion)).getD 0
    hurricane_total_deaths :=
      (m.agg.map (fun a => a.hurricane_total_deaths)).getD 0 }

/-- The panel merge step with its row-count assertion (lines 574-593):
`assert n_after_merge == n_before_merge` aborts the pipeline on a
mismatch, modelled as `Except.error`. -/
def panelMergeChecked (panel : List PanelRow) (agg : List AggRow) :
    Except String (List FilledRow) :=
  let merged := (leftJoinPanel panel agg).map fillMerged
  if merged.length = panel.length then Except.ok merged
  else Except.error "Row count mismatch!"

/-! ## Sentinel handling in the companion parsers -/

/-- Wind/pressure conversion of `filter_florida_storms_60nm.py` lines
67-68: `int(parts[6]) if parts[6].strip().isdigit() else None`. -/
def windFilterScript (s : List Char) : Option Int :=
  if trimChars s ≠ [] ∧ (trimChars s).all Char.isDigit then
    some (digitsToNat (trimChars s) : Int)
  else none

/-- `pd.to_numeric(parts[i], errors="coerce")` of `clean_hurdat2.py` line
87-88 on a wind/pressure cell: numeric strings parse, anything else is
`NaN` (`none`). -/
def toNumericCoerce (s : List Char) : Option ℚ :=
  (parseFloatCL s).map Dec10.toQ

/-- The sentinel replacement of `clean_hurdat2.py` lines 117-120:
`df[col].replace([-999, -99, -999.0, -99.0], np.nan)`. -/
def cleanReplaceSentinel (v : Option ℚ) : Option ℚ :=
  v.bind (fun x => if x = -999 ∨ x = -99 then none else some x)

/-! ## Concrete inputs used by the claims -/

/-- The synthetic HURDAT2 acceptance text of the specification: header
`AL092004,FRANCES,3` and three data lines at (28.0N, 80.0W), (27.0N,
81.0W), (26.0N, 82.5W) with max winds 95, 90, 85. -/
def synthHurdat2Text : String :=
  "AL092004,FRANCES,3\n20040901,0000,,TS,28.0N,80.0W,95,1005\n20040902,0600,,TS,27.0N,81.0W,90,1000\n20040903,1200,,HU,26.0N,82.5W,85,995"

/-- The first synthetic track point, as parsed. -/
def synthRec1 : TrackRec :=
  { storm_id := some "AL092004", storm_name := some "FRANCES"
    date := "20040901", time := "0000", record_id := "", status := "TS"
    lat := ⟨280, 1⟩, lon := ⟨-800, 1⟩
    max_wind := some 95, min_pressure := some 1005 }

/-- The second synthetic track point, as parsed. -/
def synthRec2 : TrackRec :=
  { storm_id := some "AL092004", storm_name := some "FRANCES"
    date := "20040902", time := "0600", record_id := "", status := "TS"
    lat := ⟨270, 1⟩, lon := ⟨-810, 1⟩
    max_wind := some 90, min_pressure := some 1000 }

/-- The third synthetic track point, as parsed. -/
def synthRec3 : TrackRec :=
  { storm_id := some "AL092004", storm_name := some "FRANCES"
    date := "20040903", time := "1200", record_id := "", status := "HU"
    lat := ⟨260, 1⟩, lon := ⟨-825, 1⟩
    max_wind := some 85, min_pressure := some 995 }

/-- A track point of storm `AL051999` dated 1999 (outside the filtering
year range) lying exactly at the reference point (27.5 N, 82.0 W). -/
def straddleRec1999 : TrackRec :=
  { storm_id := some "AL051999", storm_name := some "IRENE"
    date := "19991231", time := "1800", record_id := "", status := "HU"
    lat := ⟨275, 1⟩, lon := ⟨-820, 1⟩
    max_wind := some 75, min_pressure := some 980 }

/-- A track point of the same storm dated 2000 (inside the year range) at
(27.5 N, 81.5 W), ≈ 26.6 NM from the reference point. -/
def straddleRec2000 : TrackRec :=
  { storm_id := some "AL051999", storm_name := some "IRENE"
    date := "20000101", time := "0000", record_id := "", status := "TS"
    lat := ⟨275, 1⟩, lon := ⟨-815, 1⟩
    max_wind := some 40, min_pressure := some 1000 }

/-- A track of one storm straddling the year-range boundary: the 1999
point is at distance 0, the 2000 point at ≈ 26.6 NM. -/
def straddleTrack : List TrackRec :=
  [straddleRec1999, straddleRec2000]

/-- A line that neither matches the header test nor produces a record
(not data-shaped, or with unparsable coordinates): the parser loop leaves
its state unchanged on such a line. -/
def lineIsInert (line : List Char) : Bool :=
  !(isHeaderParts (lineParts line)) &&
  !(isDataShape (lineParts line) && (parseCoords (lineParts line)).isSome)

/-- A track point exactly at the reference point with an in-range year,
used to exhibit a storm inside every threshold. -/
def centerRec : TrackRec :=
  { storm_id := some "AL012005", storm_name := some "CENTER"
    date := "20050715", time := "0600", record_id := "", status := "TS"
    lat := ⟨275, 1⟩, lon := ⟨-820, 1⟩
    max_wind := some 50, min_pressure := some 1002 }

/-- A storm-summary row for FRANCES 2004, used as concrete join data. -/
def stormFrances2004 : StormSummary :=
  { storm_id := some "AL092004", storm_name := "FRANCES", year := 2004
    closest_distance_nm := 9.4, max_wind_kt := some 125
    min_pressure_mb := some 935, has_florida_landfall := true }

/-- A processed economic event that matches FRANCES 2004. -/
def econEventFrances : EconEvent :=
  { event_name := "Hurricane Frances (September 2004)"
    storm_name_clean := "FRANCES", year := some 2004
    begin_date := "20040903", end_date := "20040909"
    cost_usd_billion_cpi_adjusted := 10.5, deaths := 48 }

/-- A processed economic event with no matching storm row. -/
def econEventZeta : EconEvent :=
  { event_name := "Hurricane Zeta (October 2020)"
    storm_name_clean := "ZETA", year := some 2020
    begin_date := "20201028", end_date := "20201029"
    cost_usd_billion_cpi_adjusted := 1.5, deaths := 5 }

/-- The Zeta event as a row of the economic CSV read by the merge script. -/
def econCsvZeta : EconCsvRow :=
  { event_name := "Hurricane Zeta (October 2020)", data_year := 2020
    begin_date := "20201028", end_date := "20201029"
    cost := "1.5", deaths := "5" }

/-- A FRANCES 2004 row of the track-summary CSV read by the merge script. -/
def trackCsvFrances : TrackSummaryRow :=
  { year := 2004, storm := "Frances", sid := "AL092004"
    closest := "9.4", max_wind := "125", min_pressure := "935" }

/-- A housing-panel row whose derived year is 2004. -/
def panelRowTampa2004 : PanelRow :=
  { metro := "Tampa, FL", date := "2004-09-30", hurricane_year := 2004 }

/-- A housing-panel row whose derived year is 2005. -/
def panelRowTampa2005 : PanelRow :=
  { metro := "Tampa, FL", date := "2005-09-30", hurricane_year := 2005 }

/-- An annual-aggregate row for 2004, used as concrete merge data. -/
def aggRow2004 : AggRow :=
  { hurricane_year := 2004, hurricane_count := 3
    hurricane_max_wind_kt := some 145, hurricane_min_pressure_mb := some 935
    hurricane_closest_nm := some 9.4
    hurricane_total_cost_billion := 45.5, hurricane_total_deaths := 48 }

/-- A raw economic event whose `adjCost` and `deaths` fields are null. -/
def rawEventNullCost : RawEconEvent :=
  { name := "Hurricane Isidore (September 2002)"
    begDate := "20020923", endDate := "20020927"
    adjCost := none, deaths := none }

/-- The same raw economic event with an explicitly reported zero cost and
zero deaths. -/
def rawEventZeroCost : RawEconEvent :=
  { name := "Hurricane Isidore (September 2002)"
    begDate := "20020923", endDate := "20020927"
    adjCost := some 0, deaths := some 0 }

/-! ## Numeric facts about the haversine distances involved in the claims

`R_NM = 3440.065 = 688013/200` exactly, so the 60 NM threshold corresponds
to the arcsine value `60 / (2 * R_NM) = 6000/688013`. -/

open Real

/-- For an argument known only through an interval `[lo, hi] ⊆ (0, 1]`,
`sin` is bounded below by `lo - hi ^ 3 / 4` (cubic Taylor minorant). -/
lemma sin_lb_aux (x lo hi : ℝ) (hlo : lo ≤ x) (hhi : x ≤ hi)
    (h0 : 0 < lo) (h1 : hi ≤ 1) : lo - hi ^ 3 / 4 ≤ Real.sin x := by
  have hx0 : 0 < x := lt_of_lt_of_le h0 hlo
  have hmain := Real.sin_gt_sub_cube hx0 (le_trans hhi h1)
  have hcube : x ^ 3 ≤ hi ^ 3 := pow_le_pow_left₀ hx0.le hhi 3
  linarith

/-- For `0 ≤ x ≤ hi ≤ 1`, `cos x` is bounded below by the quartic
minorant `1 - hi ^ 2 / 2 - hi ^ 4 * (5 / 96)` (via `Real.cos_bound`). -/
lemma cos_lb_aux (x hi : ℝ) (h0 : 0 ≤ x) (hhi : x ≤ hi) (h1 : hi ≤ 1) :
    1 - hi ^ 2 / 2 - hi ^ 4 * (5 / 96) ≤ Real.cos x := by
  have habs : |x| ≤ 1 := by rw [abs_of_nonneg h0]; linarith
  have hb := Real.cos_bound habs
  rw [abs_of_nonneg h0] at hb
  have h2 : x ^ 2 ≤ hi ^ 2 := pow_le_pow_left₀ h0 hhi 2
  have h4 : x ^ 4 ≤ hi ^ 4 := pow_le_pow_left₀ h0 hhi 4
  have hb2 := abs_le.mp hb
  linarith [hb2.1, hb2.2]

/-- `0.0043633 ≤ sin (π/720)` (half of 0.25°). -/
lemma sin_pi720_lb : (0.0043633 : ℝ) ≤ Real.sin (π / 720) := by
  have h := sin_lb_aux (π / 720) (3.141592 / 720) (3.141593 / 720)
    (by linarith [Real.pi_gt_d6]) (by linarith [Real.pi_lt_d6])
    (by norm_num) (by norm_num)
  have hc : (0.0043633 : ℝ) ≤ 3.141592 / 720 - (3.141593 / 720) ^ 3 / 4 := by norm_num
  linarith

/-- `sin (π/720) ≤ 0.00436333`. -/
lemma sin_pi720_ub : Real.sin (π / 720) ≤ (0.00436333 : ℝ) := by
  have h : Real.sin (π / 720) ≤ π / 720 := Real.sin_le (by positivity)
  have hπ := Real.pi_lt_d6
  linarith

/-- `0.0087264 ≤ sin (π/360)` (half of 0.5°). -/
lemma sin_pi360_lb : (0.0087264 : ℝ) ≤ Real.sin (π / 360) := by
  have h := sin_lb_aux (π / 360) (3.141592 / 360) (3.141593 / 360)
    (by linarith [Real.pi_gt_d6]) (by linarith [Real.pi_lt_d6])
    (by norm_num) (by norm_num)
  have hc : (0.0087264 : ℝ) ≤ 3.141592 / 360 - (3.141593 / 360) ^ 3 / 4 := by norm_num
  linarith

/-- `sin (π/360) ≤ 0.00872665`. -/
lemma sin_pi360_ub : Real.sin (π / 360) ≤ (0.00872665 : ℝ) := by
  have h : Real.sin (π / 360) ≤ π / 360 := Real.sin_le (by positivity)
  have hπ := Real.pi_lt_d6
  linarith

/-- `0.0174519 ≤ sin (π/180)` (half of 1°). -/
lemma sin_pi180_lb : (0.0174519 : ℝ) ≤ Real.sin (π / 180) := by
  have h := sin_lb_aux (π / 180) (3.141592 / 180) (3.141593 / 180)
    (by linarith [Real.pi_gt_d6]) (by linarith [Real.pi_lt_d6])
    (by norm_num) (by norm_num)
  have hc : (0.0174519 : ℝ) ≤ 3.141592 / 180 - (3.141593 / 180) ^ 3 / 4 := by norm_num
  linarith

/-- `sin (π/180) ≤ 0.0174533`. -/
lemma sin_pi180_ub : Real.sin (π / 180) ≤ (0.0174533 : ℝ) := by
  have h : Real.sin (π / 180) ≤ π / 180 := Real.sin_le (by positivity)
  have hπ := Real.pi_lt_d6
  linarith

/-- `0.0130894 ≤ sin (π/240)` (half of 0.75°). -/
lemma sin_pi240_lb : (0.0130894 : ℝ) ≤ Real.sin (π / 240) := by
  have h := sin_lb_aux (π / 240) (3.141592 / 240) (3.141593 / 240)
    (by linarith [Real.pi_gt_d6]) (by linarith [Real.pi_lt_d6])
    (by norm_num) (by norm_num)
  have hc : (0.0130894 : ℝ) ≤ 3.141592 / 240 - (3.141593 / 240) ^ 3 / 4 := by norm_num
  linarith

/-- `sin (π/240) ≤ 0.01309`. -/
lemma sin_pi240_ub : Real.sin (π / 240) ≤ (0.01309 : ℝ) := by
  have h : Real.sin (π / 240) ≤ π / 240 := Real.sin_le (by positivity)
  have hπ := Real.pi_lt_d6
  linarith

/-- `0.882 ≤ cos (27.5°)`. -/
lemma cos_275deg_lb : (0.882 : ℝ) ≤ Real.cos (27.5 * π / 180) := by
  have hπ := Real.pi_lt_d6
  have h := cos_lb_aux (27.5 * π / 180) 0.48
    (by positivity) (by nlinarith) (by norm_num)
  have hc : (0.882 : ℝ) ≤ 1 - (0.48 : ℝ) ^ 2 / 2 - (0.48 : ℝ) ^ 4 * (5 / 96) := by norm_num
  linarith

/-- `0.8863 ≤ cos (27°)`. -/
lemma cos_27deg_lb : (0.8863 : ℝ) ≤ Real.cos (27 * π / 180) := by
  have hπ := Real.pi_lt_d6
  have h := cos_lb_aux (27 * π / 180) 0.4713
    (by positivity) (by nlinarith) (by norm_num)
  have hc : (0.8863 : ℝ) ≤ 1 - (0.4713 : ℝ) ^ 2 / 2 - (0.4713 : ℝ) ^ 4 * (5 / 96) := by
    norm_num
  linarith

/-- `0.8776 ≤ cos (28°)`. -/
lemma cos_28deg_lb : (0.8776 : ℝ) ≤ Real.cos (28 * π / 180) := by
  have hπ := Real.pi_lt_d6
  have h := cos_lb_aux (28 * π / 180) 0.4887
    (by positivity) (by nlinarith) (by norm_num)
  have hc : (0.8776 : ℝ) ≤ 1 - (0.4887 : ℝ) ^ 2 / 2 - (0.4887 : ℝ) ^ 4 * (5 / 96) := by
    norm_num
  linarith

/-- `0.894 ≤ cos (26°)`. -/
lemma cos_26deg_lb : (0.894 : ℝ) ≤ Real.cos (26 * π / 180) := by
  have hπ := Real.pi_lt_d6
  have h := cos_lb_aux (26 * π / 180) 0.4539
    (by positivity) (by nlinarith) (by norm_num)
  have hc : (0.894 : ℝ) ≤ 1 - (0.4539 : ℝ) ^ 2 / 2 - (0.4539 : ℝ) ^ 4 * (5 / 96) := by
    norm_num
  linarith

/-- Lower bound on the sine of the threshold angle `60 / (2 * R_NM)`:
`0.0087205 ≤ sin (6000/688013)`. -/
lemma sin_thresh_lb : (0.0087205 : ℝ) ≤ Real.sin (6000 / 688013) := by
  have h := sin_lb_aux ((6000 : ℝ) / 688013) (6000 / 688013)
    (6000 / 688013) le_rfl le_rfl (by norm_num) (by norm_num)
  have hc : (0.0087205 : ℝ) ≤
      (6000 : ℝ) / 688013 - ((6000 : ℝ) / 688013) ^ 3 / 4 := by norm_num
  linarith

/-- Unfolding of `haversine_nm` (the `let`s are definitional). -/
lemma haversine_nm_def (lat1 lon1 lat2 lon2 : ℝ) :
    haversine_nm lat1 lon1 lat2 lon2 =
      2 * 3440.065 * Real.arcsin (Real.sqrt
        (Real.sin ((lat2 * π / 180 - lat1 * π / 180) / 2) ^ 2 +
         Real.cos (lat1 * π / 180) * Real.cos (lat2 * π / 180) *
           Real.sin ((lon2 * π / 180 - lon1 * π / 180) / 2) ^ 2)) := rfl

/-- If the haversine argument `a` exceeds `(60 / (2 R_NM))² = (6000/688013)²`
(and is at most 1), the distance `2 R_NM arcsin √a` exceeds 60 NM. -/
lemma hav_gt_60 {A : ℝ} (h1 : ((6000 : ℝ) / 688013) ^ 2 < A) (h2 : A ≤ 1) :
    60 < 2 * 3440.065 * Real.arcsin (Real.sqrt A) := by
  have h0 : (0 : ℝ) < 6000 / 688013 := by norm_num
  have hsA : (6000 : ℝ) / 688013 < Real.sqrt A := by
    have := Real.sqrt_lt_sqrt (by positivity) h1
    rwa [Real.sqrt_sq h0.le] at this
  have hA1 : Real.sqrt A ≤ 1 := by
    have := Real.sqrt_le_sqrt h2
    rwa [Real.sqrt_one] at this
  have harc : Real.sqrt A ≤ Real.arcsin (Real.sqrt A) := by
    have hnn : (0 : ℝ) ≤ Real.sqrt A := Real.sqrt_nonneg A
    have hs := Real.sin_le (Real.arcsin_nonneg.mpr hnn)
    rw [Real.sin_arcsin (by linarith) hA1] at hs
    exact hs
  nlinarith

/-- If `√a` is below the sine of the threshold angle, the distance
`2 R_NM arcsin √a` is at most 60 NM. -/
lemma hav_le_60 {A : ℝ} (h1 : Real.sqrt A ≤ Real.sin (6000 / 688013)) :
    2 * 3440.065 * Real.arcsin (Real.sqrt A) ≤ 60 := by
  have hπ2 : (6000 : ℝ) / 688013 ≤ π / 2 := by
    have := Real.pi_gt_three
    linarith
  have harc : Real.arcsin (Real.sqrt A) ≤ 6000 / 688013 := by
    have hm := Real.monotone_arcsin h1
    rwa [Real.arcsin_sin (by norm_num; linarith [Real.pi_gt_three]) hπ2] at hm
  nlinarith

/-- A positive haversine argument gives a strictly positive distance. -/
lemma hav_pos {A : ℝ} (h : 0 < A) :
    0 < 2 * 3440.065 * Real.arcsin (Real.sqrt A) := by
  have := Real.arcsin_pos.mpr (Real.sqrt_pos.mpr h)
  nlinarith

/-- The synthetic point (28.0 N, 80.0 W) is more than 60 NM from
(27.5 N, 82.0 W). -/
lemma hav_pt1_gt : 60 < haversine_nm 27.5 (-82) 28 (-80) := by
  rw [haversine_nm_def]
  rw [show ((28 : ℝ) * π / 180 - 27.5 * π / 180) / 2 = π / 720 by ring]
  rw [show ((-80 : ℝ) * π / 180 - (-82) * π / 180) / 2 = π / 180 by ring]
  have c1 := cos_275deg_lb
  have c2 := cos_28deg_lb
  have c1u := Real.cos_le_one (27.5 * π / 180)
  have c2u := Real.cos_le_one (28 * π / 180)
  have s1l := sin_pi720_lb
  have s1u := sin_pi720_ub
  have s2l := sin_pi180_lb
  have s2u := sin_pi180_ub
  apply hav_gt_60
  · have hs2 : (0.0174519 : ℝ) ^ 2 ≤ Real.sin (π / 180) ^ 2 :=
      pow_le_pow_left₀ (by norm_num) s2l 2
    have hcc : (0.882 : ℝ) * 0.8776 ≤
        Real.cos (27.5 * π / 180) * Real.cos (28 * π / 180) :=
      mul_le_mul c1 c2 (by norm_num) (by linarith)
    have hprod : (0.882 : ℝ) * 0.8776 * (0.0174519 : ℝ) ^ 2 ≤
        Real.cos (27.5 * π / 180) * Real.cos (28 * π / 180) *
          Real.sin (π / 180) ^ 2 :=
      mul_le_mul hcc hs2 (by positivity) (mul_nonneg (by linarith) (by linarith))
    have hnum : ((6000 : ℝ) / 688013) ^ 2 <
        (0.882 : ℝ) * 0.8776 * (0.0174519 : ℝ) ^ 2 := by norm_num
    nlinarith [sq_nonneg (Real.sin (π / 720))]
  · have hs1 : Real.sin (π / 720) ^ 2 ≤ (0.00436333 : ℝ) ^ 2 :=
      pow_le_pow_left₀ (by linarith) s1u 2
    have hcc1 : Real.cos (27.5 * π / 180) * Real.cos (28 * π / 180) ≤ 1 := by
      nlinarith
    have ht2 : Real.cos (27.5 * π / 180) * Real.cos (28 * π / 180) *
        Real.sin (π / 180) ^ 2 ≤ Real.sin (π / 180) ^ 2 :=
      mul_le_of_le_one_left (sq_nonneg _) hcc1
    have hs2 : Real.sin (π / 180) ^ 2 ≤ (0.0174533 : ℝ) ^ 2 :=
      pow_le_pow_left₀ (by linarith) s2u 2
    nlinarith

/-- The synthetic point (27.0 N, 81.0 W) is more than 60 NM from
(27.5 N, 82.0 W) (it is at ≈ 61.24 NM). -/
lemma hav_pt2_gt : 60 < haversine_nm 27.5 (-82) 27 (-81) := by
  rw [haversine_nm_def]
  rw [show ((27 : ℝ) * π / 180 - 27.5 * π / 180) / 2 = -(π / 720) by ring]
  rw [show ((-81 : ℝ) * π / 180 - (-82) * π / 180) / 2 = π / 360 by ring]
  rw [Real.sin_neg, neg_sq]
  have c1 := cos_275deg_lb
  have c2 := cos_27deg_lb
  have c1u := Real.cos_le_one (27.5 * π / 180)
  have c2u := Real.cos_le_one (27 * π / 180)
  have s1l := sin_pi720_lb
  have s1u := sin_pi720_ub
  have s2l := sin_pi360_lb
  have s2u := sin_pi360_ub
  apply hav_gt_60
  · have hs1 : (0.0043633 : ℝ) ^ 2 ≤ Real.sin (π / 720) ^ 2 :=
      pow_le_pow_left₀ (by norm_num) s1l 2
    have hs2 : (0.0087264 : ℝ) ^ 2 ≤ Real.sin (π / 360) ^ 2 :=
      pow_le_pow_left₀ (by norm_num) s2l 2
    have hcc : (0.882 : ℝ) * 0.8863 ≤
        Real.cos (27.5 * π / 180) * Real.cos (27 * π / 180) :=
      mul_le_mul c1 c2 (by norm_num) (by linarith)
    have hprod : (0.882 : ℝ) * 0.8863 * (0.0087264 : ℝ) ^ 2 ≤
        Real.cos (27.5 * π / 180) * Real.cos (27 * π / 180) *
          Real.sin (π / 360) ^ 2 :=
      mul_le_mul hcc hs2 (by positivity) (mul_nonneg (by linarith) (by linarith))
    have hnum : ((6000 : ℝ) / 688013) ^ 2 <
        (0.0043633 : ℝ) ^ 2 + (0.882 : ℝ) * 0.8863 * (0.0087264 : ℝ) ^ 2 := by
      norm_num
    linarith
  · have hs1 : Real.sin (π / 720) ^ 2 ≤ (0.00436333 : ℝ) ^ 2 :=
      pow_le_pow_left₀ (by linarith) s1u 2
    have hcc1 : Real.cos (27.5 * π / 180) * Real.cos (27 * π / 180) ≤ 1 := by
      nlinarith
    have ht2 : Real.cos (27.5 * π / 180) * Real.cos (27 * π / 180) *
        Real.sin (π / 360) ^ 2 ≤ Real.sin (π / 360) ^ 2 :=
      mul_le_of_le_one_left (sq_nonneg _) hcc1
    have hs2 : Real.sin (π / 360) ^ 2 ≤ (0.00872665 : ℝ) ^ 2 :=
      pow_le_pow_left₀ (by linarith) s2u 2
    nlinarith

/-- The synthetic point (26.0 N, 82.5 W) is more than 60 NM from
(27.5 N, 82.0 W). -/
lemma hav_pt3_gt : 60 < haversine_nm 27.5 (-82) 26 (-82.5) := by
  rw [haversine_nm_def]
  rw [show ((26 : ℝ) * π / 180 - 27.5 * π / 180) / 2 = -(π / 240) by ring]
  rw [show ((-82.5 : ℝ) * π / 180 - (-82) * π / 180) / 2 = -(π / 720) by ring]
  rw [Real.sin_neg, Real.sin_neg, neg_sq, neg_sq]
  have c1 := cos_275deg_lb
  have c2 := cos_26deg_lb
  have c1u := Real.cos_le_one (27.5 * π / 180)
  have c2u := Real.cos_le_one (26 * π / 180)
  have s1l := sin_pi240_lb
  have s1u := sin_pi240_ub
  have s2l := sin_pi720_lb
  have s2u := sin_pi720_ub
  apply hav_gt_60
  · have hs1 : (0.0130894 : ℝ) ^ 2 ≤ Real.sin (π / 240) ^ 2 :=
      pow_le_pow_left₀ (by norm_num) s1l 2
    have hterm : (0 : ℝ) ≤ Real.cos (27.5 * π / 180) * Real.cos (26 * π / 180) *
        Real.sin (π / 720) ^ 2 :=
      mul_nonneg (mul_nonneg (by linarith) (by linarith)) (sq_nonneg _)
    have hnum : ((6000 : ℝ) / 688013) ^ 2 < (0.0130894 : ℝ) ^ 2 := by norm_num
    linarith
  · have hs1 : Real.sin (π / 240) ^ 2 ≤ (0.01309 : ℝ) ^ 2 :=
      pow_le_pow_left₀ (by linarith) s1u 2
    have hcc1 : Real.cos (27.5 * π / 180) * Real.cos (26 * π / 180) ≤ 1 := by
      nlinarith
    have ht2 : Real.cos (27.5 * π / 180) * Real.cos (26 * π / 180) *
        Real.sin (π / 720) ^ 2 ≤ Real.sin (π / 720) ^ 2 :=
      mul_le_of_le_one_left (sq_nonneg _) hcc1
    have hs2 : Real.sin (π / 720) ^ 2 ≤ (0.00436333 : ℝ) ^ 2 :=
      pow_le_pow_left₀ (by linarith) s2u 2
    nlinarith

/-- The point (27.5 N, 81.5 W) is within 60 NM of (27.5 N, 82.0 W)
(it is at ≈ 26.63 NM). -/
lemma hav_pt4_le : haversine_nm 27.5 (-82) 27.5 (-81.5) ≤ 60 := by
  rw [haversine_nm_def]
  rw [show ((27.5 : ℝ) * π / 180 - 27.5 * π / 180) / 2 = 0 by ring]
  rw [show ((-81.5 : ℝ) * π / 180 - (-82) * π / 180) / 2 = π / 720 by ring]
  rw [Real.sin_zero]
  have e : (0 : ℝ) ^ 2 + Real.cos (27.5 * π / 180) * Real.cos (27.5 * π / 180) *
      Real.sin (π / 720) ^ 2 =
      (Real.cos (27.5 * π / 180) * Real.sin (π / 720)) ^ 2 := by ring
  rw [e]
  have hcs : (0 : ℝ) ≤ Real.cos (27.5 * π / 180) * Real.sin (π / 720) :=
    mul_nonneg (by linarith [cos_275deg_lb]) (by linarith [sin_pi720_lb])
  apply hav_le_60
  rw [Real.sqrt_sq hcs]
  have h1 := Real.cos_le_one (27.5 * π / 180)
  have h2 := sin_pi720_ub
  have h3 := sin_pi720_lb
  have h4 := sin_thresh_lb
  have h5 := cos_275deg_lb
  have hle : Real.cos (27.5 * π / 180) * Real.sin (π / 720) ≤ Real.sin (π / 720) :=
    mul_le_of_le_one_left (by linarith) h1
  linarith

/-- The point (27.5 N, 81.5 W) is at a strictly positive distance from
(27.5 N, 82.0 W). -/
lemma hav_pt4_pos : 0 < haversine_nm 27.5 (-82) 27.5 (-81.5) := by
  rw [haversine_nm_def]
  rw [show ((27.5 : ℝ) * π / 180 - 27.5 * π / 180) / 2 = 0 by ring]
  rw [show ((-81.5 : ℝ) * π / 180 - (-82) * π / 180) / 2 = π / 720 by ring]
  rw [Real.sin_zero]
  apply hav_pos
  have c : (0 : ℝ) < Real.cos (27.5 * π / 180) := by linarith [cos_275deg_lb]
  have s : (0 : ℝ) < Real.sin (π / 720) := by linarith [sin_pi720_lb]
  have := mul_pos (mul_pos c c) (pow_pos s 2)
  nlinarith

/-- A point exactly at the reference location is at distance 0. -/
lemma hav_center : haversine_nm 27.5 (-82) 27.5 (-82) = 0 := by
  rw [haversine_nm_def]
  rw [show ((27.5 : ℝ) * π / 180 - 27.5 * π / 180) / 2 = 0 by ring]
  rw [show ((-82 : ℝ) * π / 180 - (-82) * π / 180) / 2 = 0 by ring]
  simp [Real.sin_zero, Real.sqrt_zero, Real.arcsin_zero]

/-! ## Bridging lemmas: distances of the concrete records -/

/-- `distToFL` unfolds to `haversine_nm` at the record's coordinates. -/
lemma distToFL_eq (r : TrackRec) (a b : ℝ)
    (h1 : ((r.lat.toQ : ℚ) : ℝ) = a) (h2 : ((r.lon.toQ : ℚ) : ℝ) = b) :
    distToFL r = haversine_nm 27.5 (-82) a b := by
  rw [distToFL, h1, h2]
  norm_num [FL_CENTER_LAT, FL_CENTER_LON]

/-- Distance of the first synthetic point. -/
lemma dist_synthRec1 : distToFL synthRec1 = haversine_nm 27.5 (-82) 28 (-80) :=
  distToFL_eq _ _ _ (by norm_num [synthRec1, Dec10.toQ])
    (by norm_num [synthRec1, Dec10.toQ])

/-- Distance of the second synthetic point. -/
lemma dist_synthRec2 : distToFL synthRec2 = haversine_nm 27.5 (-82) 27 (-81) :=
  distToFL_eq _ _ _ (by norm_num [synthRec2, Dec10.toQ])
    (by norm_num [synthRec2, Dec10.toQ])

/-- Distance of the third synthetic point. -/
lemma dist_synthRec3 : distToFL synthRec3 = haversine_nm 27.5 (-82) 26 (-82.5) :=
  distToFL_eq _ _ _ (by norm_num [synthRec3, Dec10.toQ])
    (by norm_num [synthRec3, Dec10.toQ])

/-- The 1999 point of the straddling storm is exactly at the reference
point, hence at distance 0. -/
lemma dist_straddle1999 : distToFL straddleRec1999 = 0 := by
  rw [distToFL_eq straddleRec1999 27.5 (-82)
    (by norm_num [straddleRec1999, Dec10.toQ])
    (by norm_num [straddleRec1999, Dec10.toQ])]
  exact hav_center

/-- The 2000 point of the straddling storm is within the 60 NM threshold. -/
lemma dist_straddle2000_le : distToFL straddleRec2000 ≤ 60 := by
  rw [distToFL_eq straddleRec2000 27.5 (-81.5)
    (by norm_num [straddleRec2000, Dec10.toQ])
    (by norm_num [straddleRec2000, Dec10.toQ])]
  exact hav_pt4_le

/-- The 2000 point of the straddling storm is strictly away from the
reference point. -/
lemma dist_straddle2000_pos : 0 < distToFL straddleRec2000 := by
  rw [distToFL_eq straddleRec2000 27.5 (-81.5)
    (by norm_num [straddleRec2000, Dec10.toQ])
    (by norm_num [straddleRec2000, Dec10.toQ])]
  exact hav_pt4_pos

/-- No point of the synthetic FRANCES track is within 60 NM of the
reference point, so `AL092004` never enters `florida_storm_ids`. -/
lemma synth_not_in_scope :
    ¬ stormInScope (parse_hurdat2 synthHurdat2Text) (some "AL092004") := by
  have hp : parse_hurdat2 synthHurdat2Text = [synthRec1, synthRec2, synthRec3] := by
    decide
  rw [stormInScope, stormInScopeAt, hp]
  rintro ⟨r, hr, hsid, hyr, hdist⟩
  simp only [List.mem_cons, List.not_mem_nil, or_false] at hr
  rcases hr with h | h | h <;> subst h
  · rw [dist_synthRec1] at hdist
    linarith [hav_pt1_gt]
  · rw [dist_synthRec2] at hdist
    linarith [hav_pt2_gt]
  · rw [dist_synthRec3] at hdist
    linarith [hav_pt3_gt]

/-! ## The minimum-distance loop computes the minimum over in-range points -/

/-- The source's incremental update agrees with `min`. -/
lemma if_lt_eq_min (d m : ℝ) : (if d < m then d else m) = min m d := by
  rcases lt_or_ge d m with h | h
  · rw [if_pos h, min_eq_right h.le]
  · rw [if_neg (not_lt.mpr h), min_eq_left h]

/-- The loop of lines 391-401, started from any accumulator, folds the
minimum over exactly the in-range distances of the storm. -/
lemma minDistLoop_spec (sid : Option String) (recs : List TrackRec)
    (acc : Option ℝ) :
    minDistLoop sid recs acc =
      (inRangeDists recs sid).foldl
        (fun a d => some (match a with | none => d | some m => min m d)) acc := by
  induction recs generalizing acc with
  | nil => simp [minDistLoop, inRangeDists]
  | cons r rest ih =>
    have hcons : minDistLoop sid (r :: rest) acc =
        if yearInRange r = true ∧ r.storm_id = sid then
          minDistLoop sid rest
            (some (match acc with
                   | none => distToFL r
                   | some m =>
                     if distToFL r < m then distToFL r else m))
        else minDistLoop sid rest acc := rfl
    by_cases h : yearInRange r = true ∧ r.storm_id = sid
    · have hb : (yearInRange r && (r.storm_id == sid)) = true := by
        simp [h.1, h.2]
      rw [hcons, if_pos h, ih]
      rw [show inRangeDists (r :: rest) sid =
          distToFL r :: inRangeDists rest sid from by
        simp [inRangeDists, List.filter_cons, hb]]
      rw [List.foldl_cons]
      congr 1
      cases acc with
      | none => rfl
      | some m => simp only [if_lt_eq_min]
    · have hb : (yearInRange r && (r.storm_id == sid)) = false := by
        rcases Decidable.not_and_iff_or_not.mp h with h1 | h1 <;>
          simp [Bool.and_eq_true, h1]
      rw [hcons, if_neg h, ih]
      congr 1
      simp [inRangeDists, List.filter_cons, hb]

/-- The filter loop records, for the straddling storm, only the distance
of its single in-range (year 2000) point. -/
lemma straddle_min_dist :
    storm_min_dist straddleTrack (some "AL051999") =
      some (distToFL straddleRec2000) := by
  rw [storm_min_dist, minDistLoop_spec]
  have h1 : (yearInRange straddleRec1999 &&
      (straddleRec1999.storm_id == some "AL051999")) = false := by decide
  have h2 : (yearInRange straddleRec2000 &&
      (straddleRec2000.storm_id == some "AL051999")) = true := by decide
  have h : inRangeDists straddleTrack (some "AL051999") =
      [distToFL straddleRec2000] := by
    simp [inRangeDists, straddleTrack, List.filter_cons, h1, h2]
  rw [h]
  rfl

/-- The minimum over ALL points of the straddling storm is 0 (attained at
the 1999 point sitting exactly on the reference location). -/
lemma straddle_global_min :
    minOfList (allDists straddleTrack (some "AL051999")) = some 0 := by
  have h1 : (straddleRec1999.storm_id == some "AL051999") = true := by decide
  have h2 : (straddleRec2000.storm_id == some "AL051999") = true := by decide
  have h : allDists straddleTrack (some "AL051999") =
      [distToFL straddleRec1999, distToFL straddleRec2000] := by
    simp [allDists, straddleTrack, List.filter_cons, h1, h2]
  rw [h]
  show some (min (distToFL straddleRec1999) (distToFL straddleRec2000)) = some 0
  rw [dist_straddle1999, min_eq_left dist_straddle2000_pos.le]

/-- C1 (counterexample): for the storm `AL051999` whose track straddles the
year-range boundary, the filter places the storm in scope, yet the
reported minimum distance (over in-range points only, ≈ 26.6 NM) differs
from the minimum over ALL of the storm's track points (0 NM, attained at
its 1999 point): the claim "the reported minimum equals the minimum over
ALL of that storm's track points, including points whose year lies outside
the filtering year range" is false on the code. -/
theorem c1_counterexample :
    stormInScope straddleTrack (some "AL051999") ∧
    storm_min_dist straddleTrack (some "AL051999") ≠
      minOfList (allDists straddleTrack (some "AL051999")) := by
  constructor
  · exact ⟨straddleRec2000, by decide, rfl, by decide, dist_straddle2000_le⟩
  · rw [straddle_min_dist, straddle_global_min]
    intro hcontra
    have h0 := Option.some.inj hcontra
    linarith [dist_straddle2000_pos]

/-- C1 (amended): for every storm, the reported minimum distance
`storm_min_dist` equals the minimum haversine distance over the storm's
track points whose year lies INSIDE the filtering year range 2000-2025
(points outside the range are skipped by the loop before the distance is
taken, so they never contribute). -/
theorem c1_min_over_in_range_points (recs : List TrackRec) (sid : Option String) :
    storm_min_dist recs sid = minOfList (inRangeDists recs sid) := by
  rw [storm_min_dist, minDistLoop_spec]
  rfl

/-- C5 (counterexample): on the specification's synthetic input the parser
does yield the three FRANCES points, but the claim that the filter places
`AL092004` in scope with all three points within 60 NM is false: every
point is farther than 60 NM from (27.5, -82.0) (the closest, (27.0N,
81.0W), is at ≈ 61.24 NM). -/
theorem c5_counterexample :
    parse_hurdat2 synthHurdat2Text = [synthRec1, synthRec2, synthRec3] ∧
    ¬ (stormInScope (parse_hurdat2 synthHurdat2Text) (some "AL092004") ∧
       ∀ r ∈ parse_hurdat2 synthHurdat2Text, distToFL r ≤ 60) := by
  refine ⟨by decide, ?_⟩
  rintro ⟨hscope, -⟩
  exact synth_not_in_scope hscope

/-- C5 (amended): the parser yields exactly 3 TrackPoints for `AL092004`
with the expected fields; however the Geo-Proximity Filter does NOT place
`AL092004` in scope, because no point of the track is within 60 NM of
(27.5, -82.0); over the parsed points the maximum wind is 95 kt and the
storm's year is 2004. -/
theorem c5_amended :
    parse_hurdat2 synthHurdat2Text = [synthRec1, synthRec2, synthRec3] ∧
    (∀ r ∈ parse_hurdat2 synthHurdat2Text, r.storm_id = some "AL092004") ∧
    ¬ stormInScope (parse_hurdat2 synthHurdat2Text) (some "AL092004") ∧
    maxWindOf (parse_hurdat2 synthHurdat2Text) = some 95 ∧
    firstYearOf (parse_hurdat2 synthHurdat2Text) = some 2004 :=
  ⟨by decide, by decide, synth_not_in_scope, by decide, by decide⟩

/-- A line that is neither a header nor a well-formed data line leaves the
parser state unchanged. -/
lemma stepLine_inert (st : ParseState) (line : List Char)
    (h : lineIsInert line = true) : stepLine st line = st := by
  rw [lineIsInert, Bool.and_eq_true, Bool.not_eq_true', Bool.not_eq_true'] at h
  obtain ⟨h1, h2⟩ := h
  by_cases hd : isDataShape (lineParts line) = true
  · rw [hd, Bool.true_and] at h2
    have hnone : parseCoords (lineParts line) = none := by
      cases hc : parseCoords (lineParts line) with
      | none => rfl
      | some v => rw [hc] at h2; simp at h2
    simp [stepLine, h1, hd, hnone]
  · have hd' : isDataShape (lineParts line) = false := by
      cases hds : isDataShape (lineParts line)
      · rfl
      · exact absurd hds hd
    simp [stepLine, h1, hd']

/-- Folding the parser over inert lines leaves the state unchanged. -/
lemma foldl_stepLine_inert (lines : List (List Char)) (st : ParseState)
    (h : ∀ line ∈ lines, lineIsInert line = true) :
    lines.foldl stepLine st = st := by
  induction lines generalizing st with
  | nil => rfl
  | cons l ls ih =>
    rw [List.foldl_cons, stepLine_inert st l (h l (by simp))]
    exact ih st (fun x hx => h x (by simp [hx]))

/-- C6 (amended): the parser returns the empty sequence on empty input,
and more generally on any text none of whose lines is a header line or a
record-producing data line.  (A well-formed data line appearing BEFORE any
header is NOT dropped: see the counterexample, where it is emitted with
`storm_id = none`.) -/
theorem c6_empty_input_empty_output :
    parse_hurdat2 "" = [] ∧
    ∀ text : String,
      (∀ line ∈ splitOnChar '\n' (trimChars text.data), lineIsInert line = true) →
      parse_hurdat2 text = [] := by
  refine ⟨by decide, ?_⟩
  intro text h
  rw [parse_hurdat2, foldl_stepLine_inert _ _ h]

/-- C6 (witness): a text with only malformed lines parses to the empty
sequence. -/
theorem c6_witness :
    (∀ line ∈ splitOnChar '\n' (trimChars "HURDAT2 comment\nnot,a,data,line".data),
      lineIsInert line = true) ∧
    parse_hurdat2 "HURDAT2 comment\nnot,a,data,line" = [] :=
  ⟨by decide, c6_empty_input_empty_output.2 _ (by decide)⟩

/-- C6 (counterexample): a well-formed data line with NO preceding header
is not discarded — `parse_hurdat2` emits it with `storm_id = None` — so
"texts that contain well-formed data lines but no header" do NOT yield an
empty sequence. -/
theorem c6_counterexample :
    parse_hurdat2 "20040901,0000,,TS,28.0N,80.0W,95,1005" =
      [{ storm_id := none, storm_name := none, date := "20040901"
         time := "0000", record_id := "", status := "TS"
         lat := ⟨280, 1⟩, lon := ⟨-800, 1⟩
         max_wind := some 95, min_pressure := some 1005 }] ∧
    parse_hurdat2 "20040901,0000,,TS,28.0N,80.0W,95,1005" ≠ [] :=
  ⟨by decide, by decide⟩

/-- C9: the in-scope storm set of the Geo-Proximity Filter is monotone in
the distance threshold: with the track points, reference point and year
range fixed, every storm in scope at threshold `t1 ≤ t2` is in scope at
`t2`. -/
theorem c9_scope_monotone (recs : List TrackRec) (t1 t2 : ℝ)
    (sid : Option String) (hle : t1 ≤ t2)
    (hin : stormInScopeAt recs t1 sid) : stormInScopeAt recs t2 sid := by
  obtain ⟨r, hr, h1, h2, h3⟩ := hin
  exact ⟨r, hr, h1, h2, le_trans h3 hle⟩

/-- Distance of the center record. -/
lemma dist_centerRec : distToFL centerRec = 0 := by
  rw [distToFL_eq centerRec 27.5 (-82)
    (by norm_num [centerRec, Dec10.toQ])
    (by norm_num [centerRec, Dec10.toQ])]
  exact hav_center

/-- C9 (witness): a storm sitting at the reference point is in scope at
threshold 60, hence also at threshold 100. -/
theorem c9_witness :
    (60 : ℝ) ≤ 100 ∧ stormInScopeAt [centerRec] 60 (some "AL012005") ∧
    stormInScopeAt [centerRec] 100 (some "AL012005") := by
  have hin : stormInScopeAt [centerRec] 60 (some "AL012005") :=
    ⟨centerRec, by simp, rfl, by decide, by rw [dist_centerRec]; norm_num⟩
  exact ⟨by norm_num, hin,
    c9_scope_monotone [centerRec] 60 100 (some "AL012005") (by norm_num) hin⟩

/-- C10: an economic event whose `adjCost` field is absent/null is
recorded with `cost_usd_billion_cpi_adjusted = 0` (not a null), an absent
`deaths` field is recorded as `0`, and the processed record is
indistinguishable from that of an event reporting a true zero cost and
zero deaths. -/
theorem c10_missing_cost_recorded_as_zero :
    (processEconEvent rawEventNullCost).cost_usd_billion_cpi_adjusted = 0 ∧
    (processEconEvent rawEventNullCost).deaths = 0 ∧
    processEconEvent rawEventNullCost = processEconEvent rawEventZeroCost := by
  refine ⟨?_, rfl, rfl⟩
  show round2 (((none : Option ℚ).getD 0) / 1000) = 0
  norm_num [round2]

/-- Any list is a `isPrefixOf` of itself followed by anything. -/
lemma isPrefixOf_append_self (l t : List Char) : l.isPrefixOf (l ++ t) = true := by
  rw [ List.isPrefixOf_iff_prefix]
  exact List.prefix_append l t

/-- A candidate prefix whose head differs is not a prefix. -/
lemma isPrefixOf_ne_head {a b : Char} (h : (a == b) = false)
    (as bs t : List Char) : ((a :: as).isPrefixOf (b :: bs ++ t)) = false := by
  simp [List.isPrefixOf, h]

/-- Stripping `"Hurricane "` from a name that starts with it. -/
lemma stripStormKind_hurricane (t : List Char) :
    stripStormKind ("Hurricane ".data ++ t) = t := by
  rw [stripStormKind, if_pos (isPrefixOf_append_self _ _)]
  rw [show (10 : ℕ) = ("Hurricane ".data).length from rfl, List.drop_left]

/-- Stripping `"Tropical Storm "` from a name that starts with it. -/
lemma stripStormKind_tstorm (t : List Char) :
    stripStormKind ("Tropical Storm ".data ++ t) = t := by
  have hH : ("Hurricane ".data.isPrefixOf ("Tropical Storm ".data ++ t)) = false := by
    rw [show "Hurricane ".data = 'H' :: "urricane ".data from rfl,
      show "Tropical Storm ".data = 'T' :: "ropical Storm ".data from rfl]
    exact isPrefixOf_ne_head (by decide) _ _ _
  rw [stripStormKind, if_neg (by simp [hH]), if_pos (isPrefixOf_append_self _ _)]
  rw [show (15 : ℕ) = ("Tropical Storm ".data).length from rfl, List.drop_left]

/-- Stripping `"Tropical Cyclone "` from a name that starts with it. -/
lemma stripStormKind_tcyclone (t : List Char) :
    stripStormKind ("Tropical Cyclone ".data ++ t) = t := by
  have hH : ("Hurricane ".data.isPrefixOf ("Tropical Cyclone ".data ++ t)) = false := by
    rw [show "Hurricane ".data = 'H' :: "urricane ".data from rfl,
      show "Tropical Cyclone ".data = 'T' :: "ropical Cyclone ".data from rfl]
    exact isPrefixOf_ne_head (by decide) _ _ _
  have hTS : ("Tropical Storm ".data.isPrefixOf
      ("Tropical Cyclone ".data ++ t)) = false := by
    rw [show "Tropical Cyclone ".data ++ t =
      'T' :: 'r' :: 'o' :: 'p' :: 'i' :: 'c' :: 'a' :: 'l' :: ' ' :: 'C' ::
        ("yclone ".data ++ t) from rfl]
    rw [show "Tropical Storm ".data =
      'T' :: 'r' :: 'o' :: 'p' :: 'i' :: 'c' :: 'a' :: 'l' :: ' ' :: 'S' ::
        "torm ".data from rfl]
    simp [List.isPrefixOf]
  rw [stripStormKind, if_neg (by simp [hH]), if_neg (by simp [hTS]),
    if_pos (isPrefixOf_append_self _ _)]
  rw [show (17 : ℕ) = ("Tropical Cyclone ".data).length from rfl, List.drop_left]

/-- `takeWhile` over a satisfying block followed by a failing element. -/
lemma takeWhile_append_stop {p : Char → Bool} (l : List Char)
    (h : ∀ c ∈ l, p c = true) (x : Char) (hx : p x = false) (t : List Char) :
    ((l ++ x :: t).takeWhile p) = l := by
  induction l with
  | nil => simp [List.takeWhile_cons, hx]
  | cons a as ih =>
    have ha : p a = true := h a (by simp)
    simp [List.takeWhile_cons, ha, ih (fun c hc => h c (by simp [hc]))]

/-- Cutting at the parenthetical: for a paren-free stem followed by `'('`,
the parenthetical-stripping step returns the trimmed stem. -/
lemma stripParenthetical_split (base t : List Char) (h : '(' ∉ base) :
    stripParenthetical (base ++ '(' :: t) = trimChars base := by
  rw [stripParenthetical,
    if_pos (List.mem_append_right base (List.mem_cons_self _ _))]
  congr 1
  apply takeWhile_append_stop
  · intro c hc
    simp only [ne_eq, decide_eq_true_eq]
    exact fun hEq => h (hEq ▸ hc)
  · simp

/-- Coherence of the two key descriptions: for a pipeline-built economic
event, the join key used by the merge (the stripped `storm_name_clean`
column) is exactly `econMergeKey` of the raw event name. -/
lemma processed_event_key (ev : RawEconEvent) :
    String.mk (trimChars (processEconEvent ev).storm_name_clean.data) =
      econMergeKey ev.name := rfl

/-- C7 (amended, for the pipeline): for every event name of the shape
`prefix ++ stem ++ "(" ++ rest` with a recognized prefix and a paren-free
stem, the pipeline's join key is produced exactly as the claim says for
`capstone_data_pipeline.py`: strip the prefix, cut the parenthetical and
strip, uppercase, and trim.  (The standalone merge script's
`extract_storm_name` does NOT follow this rule: see the counterexample.) -/
theorem c7_pipeline_key_normalization (pre base rest : String)
    (hpre : pre = "Hurricane " ∨ pre = "Tropical Storm " ∨
      pre = "Tropical Cyclone ")
    (hbase : '(' ∉ base.data) :
    econMergeKey (pre ++ base ++ "(" ++ rest) =
      String.mk (trimChars (upperChars (trimChars base.data))) := by
  have hdata : (pre ++ base ++ "(" ++ rest).data =
      pre.data ++ (base.data ++ '(' :: rest.data) := by
    simp [String.data_append, List.append_assoc]
  have hstrip : stripStormKind ((pre ++ base ++ "(" ++ rest)).data =
      base.data ++ '(' :: rest.data := by
    rw [hdata]
    rcases hpre with h | h | h <;> subst h
    · exact stripStormKind_hurricane _
    · exact stripStormKind_tstorm _
    · exact stripStormKind_tcyclone _
  rw [econMergeKey, normalizeEventName, hstrip,
    stripParenthetical_split _ _ hbase]

/-- C7 (witness): the claim's own example evaluates as stated:
`"Hurricane Frances (September 2004)"` normalizes to `"FRANCES"`. -/
theorem c7_witness :
    econMergeKey "Hurricane Frances (September 2004)" = "FRANCES" := by
  have h := c7_pipeline_key_normalization "Hurricane " "Frances "
    "September 2004)" (Or.inl rfl) (by decide)
  rw [show ("Hurricane Frances (September 2004)" : String) =
    "Hurricane " ++ "Frances " ++ "(" ++ "September 2004)" from rfl]
  rw [h]
  decide

/-- C7 (counterexample): the merge script's `extract_storm_name` does not
strip the trailing parenthetical (nor the `"Tropical Cyclone "` prefix),
so the claimed normalization, applied to the claim's own example, fails
there: it produces `"FRANCES (SEPTEMBER 2004)"`, not `"FRANCES"`. -/
theorem c7_counterexample :
    extract_storm_name "Hurricane Frances (September 2004)" =
      "FRANCES (SEPTEMBER 2004)" ∧
    extract_storm_name "Hurricane Frances (September 2004)" ≠ "FRANCES" :=
  ⟨by decide, by decide⟩

/-- C3 (amended, for the pipeline): the pipeline's hurricane-economic
merge is an inner join on `(normalized storm name, year)`: an economic
event with no matching storm row contributes nothing to the merged table —
removing it from the input leaves the output unchanged, so it is absent
(not present with null track fields).  (The standalone merge script
instead keeps every economic row: see the counterexample.) -/
theorem c3_pipeline_inner_join_drops_unmatched (xs ys : List EconEvent)
    (storms : List StormSummary) (e : EconEvent)
    (h : ∀ s ∈ storms, econStormMatch e s = false) :
    hurricane_econ_join (xs ++ e :: ys) storms =
      hurricane_econ_join (xs ++ ys) storms := by
  unfold hurricane_econ_join
  rw [List.flatMap_append, List.flatMap_append, List.flatMap_cons]
  have hnil : storms.filter (fun s => econStormMatch e s) = [] :=
    List.filter_eq_nil_iff.mpr (fun s hs => by simp [h s hs])
  rw [hnil]
  simp

/-- C3 (witness): the Zeta event matches no storm row, and dropping it
from the economic input leaves the pipeline's merged table unchanged. -/
theorem c3_witness :
    (∀ s ∈ [stormFrances2004], econStormMatch econEventZeta s = false) ∧
    hurricane_econ_join [econEventFrances, econEventZeta] [stormFrances2004] =
      hurricane_econ_join [econEventFrances] [stormFrances2004] :=
  ⟨by decide, c3_pipeline_inner_join_drops_unmatched [econEventFrances] []
    [stormFrances2004] econEventZeta (by decide)⟩

/-- C3 (counterexample): in `merge_hurricane_economic.py` the merge is NOT
inner: the unmatched Zeta event appears in the merged output with
empty-string track fields instead of being absent. -/
theorem c3_counterexample :
    merge_script_rows [econCsvZeta] [trackCsvFrances] =
      [{ event_name := "Hurricane Zeta (October 2020)", year := 2020
         begin_date := "20201028", end_date := "20201029"
         cost_usd_billion_cpi_adjusted := "1.5", deaths := "5"
         closest_distance_nm := "", max_wind_kt := "", min_pressure_mb := ""
         storm_id := "" }] ∧
    (merge_script_rows [econCsvZeta] [trackCsvFrances]).length = 1 :=
  ⟨by decide, by decide⟩

/-- With unique years in the aggregate, at most one aggregate row matches
any given year. -/
lemma filter_year_length_le_one (agg : List AggRow)
    (hnd : (agg.map (fun a => a.hurricane_year)).Nodup) (y : Int) :
    (agg.filter (fun a => a.hurricane_year == y)).length ≤ 1 := by
  induction agg with
  | nil => simp
  | cons a rest ih =>
    rw [List.map_cons, List.nodup_cons] at hnd
    obtain ⟨hna, hrest⟩ := hnd
    rw [List.filter_cons]
    by_cases hy : (a.hurricane_year == y) = true
    · rw [if_pos hy]
      have hy' : a.hurricane_year = y := by simpa using hy
      have hrf : rest.filter (fun b => b.hurricane_year == y) = [] := by
        apply List.filter_eq_nil_iff.mpr
        intro b hb hby
        have hby' : b.hurricane_year = y := by simpa using hby
        exact hna (List.mem_map.mpr ⟨b, hb, by rw [hby', hy']⟩)
      rw [hrf]
      simp
    · rw [if_neg hy]
      exact ih hrest

/-- With at most one aggregate row per year, the left join preserves the
panel's row count: each panel row contributes exactly one output row. -/
lemma leftJoinPanel_length (panel : List PanelRow) (agg : List AggRow)
    (h : ∀ y, (agg.filter (fun a => a.hurricane_year == y)).length ≤ 1) :
    (leftJoinPanel panel agg).length = panel.length := by
  induction panel with
  | nil => rfl
  | cons p ps ih =>
    rw [leftJoinPanel] at ih ⊢
    rw [List.flatMap_cons, List.length_append, ih, List.length_cons]
    cases hF : agg.filter (fun a => a.hurricane_year == p.hurricane_year) with
    | nil => simp; omega
    | cons a as =>
      have hle := h p.hurricane_year
      rw [hF] at hle
      simp only [List.length_cons] at hle
      have has : as.length = 0 := by omega
      simp only [List.length_map, List.length_cons, has]
      omega

/-- C2: for every housing panel and every annual hurricane aggregate with
one row per year (unique join keys), the Panel Merger's output has exactly
as many rows as the input panel and the checked merge step succeeds; a
row-count mismatch is fatal (an `Except.error`), not silently logged. -/
theorem c2_panel_merge_row_count (panel : List PanelRow) (agg : List AggRow)
    (h : (agg.map (fun a => a.hurricane_year)).Nodup) :
    ((leftJoinPanel panel agg).map fillMerged).length = panel.length ∧
    panelMergeChecked panel agg =
      Except.ok ((leftJoinPanel panel agg).map fillMerged) ∧
    ∀ (panel2 : List PanelRow) (agg2 : List AggRow),
      ((leftJoinPanel panel2 agg2).map fillMerged).length ≠ panel2.length →
      panelMergeChecked panel2 agg2 = Except.error "Row count mismatch!" := by
  have hlen : (leftJoinPanel panel agg).length = panel.length :=
    leftJoinPanel_length panel agg (fun y => filter_year_length_le_one agg h y)
  have hmap : ((leftJoinPanel panel agg).map fillMerged).length = panel.length := by
    rw [List.length_map, hlen]
  refine ⟨hmap, ?_, ?_⟩
  · rw [panelMergeChecked, if_pos hmap]
  · intro p2 a2 hne
    rw [panelMergeChecked, if_neg hne]

/-- C2 (witness): a two-row panel joined with a one-year aggregate keeps
exactly two rows and the checked step succeeds. -/
theorem c2_witness :
    (([aggRow2004].map (fun a => a.hurricane_year)).Nodup) ∧
    panelMergeChecked [panelRowTampa2004, panelRowTampa2005] [aggRow2004] =
      Except.ok ((leftJoinPanel [panelRowTampa2004, panelRowTampa2005]
        [aggRow2004]).map fillMerged) ∧
    ((leftJoinPanel [panelRowTampa2004, panelRowTampa2005]
      [aggRow2004]).map fillMerged).length = 2 := by
  have h := c2_panel_merge_row_count [panelRowTampa2004, panelRowTampa2005]
    [aggRow2004] (by decide)
  exact ⟨by decide, h.2.1, h.1⟩

/-- The group keys of the annual aggregate are exactly the storm years. -/
lemma stormYears_mem (storms : List StormSummary) (y : Int) :
    y ∈ stormYears storms ↔ ∃ s ∈ storms, s.year = y := by
  rw [stormYears, (List.perm_insertionSort _ _).mem_iff, List.mem_dedup,
    List.mem_map]

/-- C4: a year with zero in-scope storms is absent as a key from the
annual hurricane aggregate, and for every housing-panel row whose derived
year is such a year, the Panel Merger fills every hurricane-derived column
with exactly 0. -/
theorem c4_zero_storm_year_absent_filled_zero (storms : List StormSummary)
    (econJ : List MergedEcon) (panel : List PanelRow) (y : Int)
    (h : ∀ s ∈ storms, s.year ≠ y) :
    (∀ a ∈ annualHurricane storms econJ, a.hurricane_year ≠ y) ∧
    (∀ m ∈ (leftJoinPanel panel (annualHurricane storms econJ)).map fillMerged,
      m.hurricane_year = y →
        m.hurricane_count = 0 ∧ m.hurricane_max_wind_kt = 0 ∧
        m.hurricane_min_pressure_mb = 0 ∧ m.hurricane_closest_nm = 0 ∧
        m.hurricane_total_cost_billion = 0 ∧ m.hurricane_total_deaths = 0) := by
  have hyears : ∀ a ∈ annualHurricane storms econJ, a.hurricane_year ≠ y := by
    intro a ha hay
    rw [annualHurricane, List.mem_map] at ha
    obtain ⟨yr, hyr, hEq⟩ := ha
    have hyr' : yr = y := by
      have : a.hurricane_year = yr := by rw [← hEq]
      rw [← this, hay]
    obtain ⟨s, hs, hsy⟩ := (stormYears_mem storms yr).mp hyr
    exact h s hs (by rw [hsy, hyr'])
  refine ⟨hyears, ?_⟩
  intro m hm hmy
  rw [List.mem_map] at hm
  obtain ⟨mr, hmr, hfill⟩ := hm
  rw [leftJoinPanel, List.mem_flatMap] at hmr
  obtain ⟨p, hp, hmem⟩ := hmr
  cases hF : (annualHurricane storms econJ).filter
      (fun a => a.hurricane_year == p.hurricane_year) with
  | nil =>
    rw [hF] at hmem
    simp only [List.mem_singleton] at hmem
    subst hmem
    rw [← hfill]
    exact ⟨rfl, rfl, rfl, rfl, rfl, rfl⟩
  | cons a as =>
    rw [hF] at hmem
    rw [List.mem_map] at hmem
    obtain ⟨a2, ha2, hmr2⟩ := hmem
    exfalso
    have ha2' : a2 ∈ (annualHurricane storms econJ).filter
        (fun a => a.hurricane_year == p.hurricane_year) := by
      rw [hF]; exact ha2
    have hfm := List.of_mem_filter ha2'
    have hmem2 := List.mem_of_mem_filter ha2'
    have h1 : a2.hurricane_year = p.hurricane_year := by simpa using hfm
    have h2 : mr.hurricane_year = p.hurricane_year := by rw [← hmr2]
    have h3 : m.hurricane_year = mr.hurricane_year := by rw [← hfill]; rfl
    exact hyears a2 hmem2 (by rw [h1, ← h2, ← h3, hmy])

/-- C4 (witness): with only a 2004 storm in scope, 2005 is absent from the
aggregate and a 2005 panel row gets exactly 0 in every hurricane column. -/
theorem c4_witness :
    (∀ s ∈ [stormFrances2004], s.year ≠ 2005) ∧
    (∀ a ∈ annualHurricane [stormFrances2004] [], a.hurricane_year ≠ 2005) ∧
    (∀ m ∈ (leftJoinPanel [panelRowTampa2005]
        (annualHurricane [stormFrances2004] [])).map fillMerged,
      m.hurricane_year = 2005 →
        m.hurricane_count = 0 ∧ m.hurricane_max_wind_kt = 0 ∧
        m.hurricane_min_pressure_mb = 0 ∧ m.hurricane_closest_nm = 0 ∧
        m.hurricane_total_cost_billion = 0 ∧ m.hurricane_total_deaths = 0) := by
  have h := c4_zero_storm_year_absent_filled_zero [stormFrances2004] []
    [panelRowTampa2005] 2005 (by decide)
  exact ⟨by decide, h.1, h.2⟩

/-- Value of the cleaned numeric cell for `"-999"`. -/
lemma toNumeric_m999 : toNumericCoerce "-999".data = some (-999 : ℚ) := by
  have h : parseFloatCL "-999".data = some ⟨-999, 0⟩ := by decide
  rw [toNumericCoerce, h]
  simp [Dec10.toQ]

/-- Value of the cleaned numeric cell for `"-99"`. -/
lemma toNumeric_m99 : toNumericCoerce "-99".data = some (-99 : ℚ) := by
  have h : parseFloatCL "-99".data = some ⟨-99, 0⟩ := by decide
  rw [toNumericCoerce, h]
  simp [Dec10.toQ]

/-- Value of the cleaned numeric cell for `"95"`. -/
lemma toNumeric_95 : toNumericCoerce "95".data = some (95 : ℚ) := by
  have h : parseFloatCL "95".data = some ⟨95, 0⟩ := by decide
  rw [toNumericCoerce, h]
  simp [Dec10.toQ]

/-- C8: in all three parsers, the wind/pressure sentinels `"-999"`,
`"-99"` and blank map to the explicit absent value `none` — never to zero
— while a plain numeric string like `"95"` maps to its value 95.
(`windSentinel` is the pipeline's conversion, `windFilterScript` the
standalone filter's, and `cleanReplaceSentinel ∘ toNumericCoerce` the
cleaning script's `to_numeric` + sentinel replacement.) -/
theorem c8_sentinels_to_null_never_zero :
    (windSentinel "-999".data = none ∧ windSentinel "-99".data = none ∧
     windSentinel "".data = none ∧ windSentinel "95".data = some 95) ∧
    (windFilterScript "-999".data = none ∧ windFilterScript "-99".data = none ∧
     windFilterScript "".data = none ∧ windFilterScript "95".data = some 95) ∧
    (cleanReplaceSentinel (toNumericCoerce "-999".data) = none ∧
     cleanReplaceSentinel (toNumericCoerce "-99".data) = none ∧
     cleanReplaceSentinel (toNumericCoerce "".data) = none ∧
     cleanReplaceSentinel (toNumericCoerce "95".data) = some 95) := by
  refine ⟨by decide, by decide, ?_, ?_, ?_, ?_⟩
  · rw [toNumeric_m999]
    simp [cleanReplaceSentinel]
  · rw [toNumeric_m99]
    simp [cleanReplaceSentinel]
  · rw [show toNumericCoerce "".data = none from by decide]
    rfl
  · rw [toNumeric_95]
    norm_num [cleanReplaceSentinel]
